import Mathlib

/-!
Shallow embedding of the core of the Banking / counterfactual-oracle backend:
the Monte-Carlo projection engine and balance-sheet check
(backend/app/domain/logic.py), the realism validator
(backend/app/domain/agents/validator.py) and the debate orchestrator
(backend/app/domain/agents/debate_agent.py).

Modelling conventions:
- Python floats are embedded as exact rationals; the claims under study are
  algebraic identities, sign conditions and control-flow facts, none of which
  depend on IEEE rounding.
- External language-model calls are modelled as oracles: per-call-site
  functions from a call counter to an optional response, where a missing
  response stands for a raised exception (or, at parse sites, an unparseable
  response).  A Python exception escaping a function is modelled by the
  function returning an error value.
- Wall-clock timestamps and the exact prompt strings are irrelevant to the
  claims and are not carried in the model; narrative message strings are kept
  up to numeral formatting.
-/

/-- A lookup in a string-keyed mapping with a default, modelling the Python
dict method get(key, default). -/
def dictGetD (d : List (String × ℚ)) (k : String) (dflt : ℚ) : ℚ :=
  match d.find? (fun p => p.1 == k) with
  | some p => p.2
  | none => dflt

/-- Core income-statement fields consumed by the simulation engine
(app/domain/models.py, class IncomeStatement). -/
structure IncomeStatement where
  Revenue : ℚ
  CostOfGoodsSold : ℚ
  GrossProfit : ℚ
  OpEx : ℚ
  EBITDA : ℚ
  DepreciationAndAmortization : ℚ
  EBIT : ℚ
  InterestExpense : ℚ
  Taxes : ℚ
  NetIncome : ℚ

/-- Cash-flow fields consumed by the simulation engine
(app/domain/models.py, class CashFlow); the remaining fields are never read
by the code under verification. -/
structure CashFlow where
  ChangeInWorkingCapital : ℚ
  CapEx : ℚ

/-- Balance sheet as three string-keyed sections
(app/domain/models.py, class BalanceSheet). -/
structure BalanceSheet where
  Assets : List (String × ℚ)
  Liabilities : List (String × ℚ)
  Equity : List (String × ℚ)

/-- The parts of FinancialReport read by the simulation engine
(app/domain/models.py, class FinancialReport). -/
structure FinancialReport where
  income_statement : IncomeStatement
  balance_sheet : BalanceSheet
  cash_flow : CashFlow
  kpis : List (String × ℚ)

/-- Scenario deltas in basis points (app/domain/models.py, ScenarioParams). -/
structure ScenarioParams where
  opex_delta_bps : ℚ
  revenue_growth_bps : ℚ
  discount_rate_bps : ℚ
  tax_rate_delta_bps : ℚ

/-- One stochastic trial (app/domain/models.py, SimulationResult). -/
structure SimulationResult where
  scenario_id : ℕ
  revenue : ℚ
  ebitda : ℚ
  net_income : ℚ
  fcf : ℚ
  npv : ℚ
  key_driver : String
  revenue_forecast : List ℚ
  ebitda_forecast : List ℚ
  net_income_forecast : List ℚ
  fcf_forecast : List ℚ

/-- Cross-trial aggregate (app/domain/models.py, AggregatedSimulation). -/
structure AggregatedSimulation where
  median_npv : ℚ
  p10_npv : ℚ
  p90_npv : ℚ
  median_revenue : ℚ
  median_ebitda : ℚ
  median_fcf : ℚ
  revenue_forecast_p50 : List ℚ
  ebitda_forecast_p50 : List ℚ
  fcf_forecast_p50 : List ℚ
  assumption_log : List String
  traceability : List (String × String)
  simulation_runs : List SimulationResult

/-- logic.py, calculate_fcf: FCF is NOPAT plus D and A plus the two flow
terms, which the code adds with the sign they carry in the report. -/
def calculate_fcf (ebit tax_rate dep_amort change_working_capital capex : ℚ) : ℚ :=
  ebit * (1 - tax_rate) + dep_amort + change_working_capital + capex

/-- Accumulator for calculate_npv: discount each flow at period t, t+1, ... -/
def npvAux (r : ℚ) : List ℚ → ℕ → ℚ
  | [], _ => 0
  | f :: rest, t => f / (1 + r) ^ t + npvAux r rest (t + 1)

/-- logic.py, calculate_npv: sum of FCF_t over (1+r)^t for t starting at 1. -/
def calculate_npv (fcf_stream : List ℚ) (discount_rate : ℚ) : ℚ :=
  npvAux discount_rate fcf_stream 1

/-- Base-year gross margin used in run_monte_carlo (guarded ratio). -/
def gross_margin (report : FinancialReport) : ℚ :=
  if report.income_statement.Revenue > 0 then
    report.income_statement.GrossProfit / report.income_statement.Revenue
  else 0

/-- Base-year D and A to revenue ratio used in run_monte_carlo. -/
def da_margin (report : FinancialReport) : ℚ :=
  if report.income_statement.Revenue > 0 then
    report.income_statement.DepreciationAndAmortization / report.income_statement.Revenue
  else 0

/-- Base-year CapEx to revenue ratio used in run_monte_carlo. -/
def capex_margin (report : FinancialReport) : ℚ :=
  if report.income_statement.Revenue > 0 then
    report.cash_flow.CapEx / report.income_statement.Revenue
  else 0

/-- Base-year working-capital-change to revenue ratio used in run_monte_carlo. -/
def wc_margin (report : FinancialReport) : ℚ :=
  if report.income_statement.Revenue > 0 then
    report.cash_flow.ChangeInWorkingCapital / report.income_statement.Revenue
  else 0

/-- Baseline organic revenue growth: kpis.get with default 3 percent. -/
def organic_growth (report : FinancialReport) : ℚ :=
  dictGetD report.kpis "RevenueGrowth" (3 / 100)

/-- Effective tax rate per trial: base rate (kpis.get with default 25
percent) plus the scenario delta in bps over 10000. -/
def tax_rate_of (report : FinancialReport) (params : ScenarioParams) : ℚ :=
  dictGetD report.kpis "TaxRate" (25 / 100) + params.tax_rate_delta_bps / 10000

/-- The tax line of the net-income path in the propagation loop:
taxes are charged only on positive EBIT. -/
def yearTaxes (ebit tax_rate : ℚ) : ℚ :=
  if ebit > 0 then ebit * tax_rate else 0

/-- One simulated year as stored into the four per-trial streams. -/
structure YearRec where
  rev : ℚ
  ebitda : ℚ
  fcf : ℚ
  net_income : ℚ

/-- One iteration of the time-propagation loop of run_monte_carlo
(logic.py lines 121-162): state is the pair (curr_rev, curr_opex). -/
def yearStep (report : FinancialReport) (params : ScenarioParams)
    (sim_rev_growth sim_opex_shift : ℚ) (s : ℚ × ℚ) : (ℚ × ℚ) × YearRec :=
  let total_rev_growth := organic_growth report + sim_rev_growth
  let curr_rev := s.1 * (1 + total_rev_growth)
  let opex_growth := total_rev_growth + sim_opex_shift
  let curr_opex := s.2 * (1 + opex_growth)
  let curr_cogs := curr_rev * (1 - gross_margin report)
  let curr_ebitda := curr_rev - curr_cogs - curr_opex
  let curr_da := curr_rev * da_margin report
  let curr_ebit := curr_ebitda - curr_da
  let curr_taxes := yearTaxes curr_ebit (tax_rate_of report params)
  let curr_net_income := curr_ebit - report.income_statement.InterestExpense - curr_taxes
  let curr_capex := curr_rev * capex_margin report
  let curr_wc := curr_rev * wc_margin report
  let curr_fcf := calculate_fcf curr_ebit (tax_rate_of report params) curr_da curr_wc curr_capex
  ((curr_rev, curr_opex), ⟨curr_rev, curr_ebitda, curr_fcf, curr_net_income⟩)

/-- The n-year propagation from a starting state, collecting the stored
year records in order t = 1, 2, ... -/
def runYears (report : FinancialReport) (params : ScenarioParams)
    (sim_rev_growth sim_opex_shift : ℚ) : ℕ → (ℚ × ℚ) → List YearRec
  | 0, _ => []
  | n + 1, s =>
    let step := yearStep report params sim_rev_growth sim_opex_shift s
    step.2 :: runYears report params sim_rev_growth sim_opex_shift n step.1

/-- The discount rate actually applied in the valuation step of every trial:
8 percent base plus the bps delta, floored to growth plus one percent when it
would not exceed the 2 percent terminal growth (logic.py lines 166-169). -/
def usedDiscountRate (params : ScenarioParams) : ℚ :=
  let r := 8 / 100 + params.discount_rate_bps / 10000
  if r ≤ 2 / 100 then 2 / 100 + 1 / 100 else r

/-- One full trial of run_monte_carlo: 5-year propagation, Gordon terminal
value at year 5, NPV of the stream plus discounted terminal value. -/
def runTrial (report : FinancialReport) (params : ScenarioParams)
    (i : ℕ) (sim_rev_growth sim_opex_shift : ℚ) : SimulationResult :=
  let years := runYears report params sim_rev_growth sim_opex_shift 5
    (report.income_statement.Revenue, report.income_statement.OpEx)
  let rev_stream := years.map (fun y => y.rev)
  let ebitda_stream := years.map (fun y => y.ebitda)
  let fcf_stream := years.map (fun y => y.fcf)
  let net_income_stream := years.map (fun y => y.net_income)
  let r := usedDiscountRate params
  let terminal_fcf := fcf_stream.getLastD 0 * (1 + 2 / 100)
  let terminal_value := terminal_fcf / (r - 2 / 100)
  let npv := calculate_npv fcf_stream r + terminal_value / (1 + r) ^ 5
  { scenario_id := i
    revenue := rev_stream.headD 0
    ebitda := ebitda_stream.headD 0
    net_income := net_income_stream.headD 0
    fcf := fcf_stream.headD 0
    npv := npv
    key_driver := if |sim_rev_growth| > |sim_opex_shift| then "Revenue" else "OpEx"
    revenue_forecast := rev_stream
    ebitda_forecast := ebitda_stream
    net_income_forecast := net_income_stream
    fcf_forecast := fcf_stream }

/-- Abstract model of the numpy normal sampler: from a generator state, a
mean, a standard deviation and a draw count, produce the indexed draws and
the successor state.  The sampler internals live outside this repository;
the engine relies only on it being a deterministic function of the state. -/
structure Sampler where
  normal : ℕ → ℚ → ℚ → ℕ → (ℕ → ℚ) × ℕ

/-- Model of numpy default generator construction: a fresh generator seeded
with an explicit seed ignores ambient entropy; only an unseeded generator
would consume it.  run_monte_carlo always passes the literal seed 42. -/
def default_rng (entropy : ℕ) (seed : Option ℕ) : ℕ :=
  match seed with
  | some s => s
  | none => entropy

/-- The two draw streams of run_monte_carlo (logic.py lines 83-91): revenue
growth draws then OpEx shift draws from the same seeded generator. -/
def mcDraws (sampler : Sampler) (entropy : ℕ) (params : ScenarioParams)
    (num_simulations : ℕ) : (ℕ → ℚ) × (ℕ → ℚ) :=
  let st0 := default_rng entropy (some 42)
  let d1 := sampler.normal st0 (params.revenue_growth_bps / 10000) (2 / 100) num_simulations
  let d2 := sampler.normal d1.2 (params.opex_delta_bps / 10000) (1 / 100) num_simulations
  (d1.1, d2.1)

/-- The list of trial results produced by the main loop of run_monte_carlo. -/
def mcTrials (sampler : Sampler) (entropy : ℕ) (base_report : FinancialReport)
    (params : ScenarioParams) (num_simulations : ℕ) : List SimulationResult :=
  let draws := mcDraws sampler entropy params num_simulations
  (List.range num_simulations).map
    (fun i => runTrial base_report params i (draws.1 i) (draws.2 i))

/-- Sort a list of rationals ascending, as numpy sorting does before
median and percentile. -/
def sortQ (l : List ℚ) : List ℚ :=
  l.mergeSort (fun a b => decide (a ≤ b))

/-- numpy median: middle element, or mean of the two middle elements. -/
def medianQ (l : List ℚ) : ℚ :=
  let s := sortQ l
  let n := s.length
  if n = 0 then 0
  else if n % 2 = 1 then s.getD (n / 2) 0
  else (s.getD (n / 2 - 1) 0 + s.getD (n / 2) 0) / 2

/-- numpy percentile with linear interpolation. -/
def percentileQ (l : List ℚ) (q : ℚ) : ℚ :=
  let s := sortQ l
  let n := s.length
  if n = 0 then 0
  else
    let h : ℚ := (n - 1 : ℚ) * q / 100
    let lo : ℕ := h.floor.toNat
    let frac : ℚ := h - h.floor
    if lo + 1 < n then s.getD lo 0 + frac * (s.getD (lo + 1) 0 - s.getD lo 0)
    else s.getD lo 0

/-- Element-wise median by year index over the 5-column forecast matrix. -/
def medianByYear (m : List (List ℚ)) : List ℚ :=
  (List.range 5).map (fun j => medianQ (m.map (fun row => row.getD j 0)))

/-- logic.py, run_monte_carlo.  The ValueError raised on non-positive base
revenue is modelled as the error branch of Except; the check runs before the
generator is created and before any trial executes, exactly as in the code. -/
def run_monte_carlo (sampler : Sampler) (entropy : ℕ)
    (base_report : FinancialReport) (params : ScenarioParams)
    (num_simulations : ℕ) : Except String AggregatedSimulation :=
  if base_report.income_statement.Revenue ≤ 0 then
    Except.error "Base revenue must be positive"
  else
    let results := mcTrials sampler entropy base_report params num_simulations
    let npvs := results.map (fun r => r.npv)
    let revenues_y1 := results.map (fun r => r.revenue)
    let ebitdas_y1 := results.map (fun r => r.ebitda)
    let fcfs_y1 := results.map (fun r => r.fcf)
    Except.ok
      { median_npv := medianQ npvs
        p10_npv := percentileQ npvs 10
        p90_npv := percentileQ npvs 90
        median_revenue := medianQ revenues_y1
        median_ebitda := medianQ ebitdas_y1
        median_fcf := medianQ fcfs_y1
        revenue_forecast_p50 := medianByYear (results.map (fun r => r.revenue_forecast))
        ebitda_forecast_p50 := medianByYear (results.map (fun r => r.ebitda_forecast))
        fcf_forecast_p50 := medianByYear (results.map (fun r => r.fcf_forecast))
        assumption_log :=
          [ "Causal Model: 5-Year Explicit Forecast + Terminal Value (g=2%)",
            "Revenue Driver: Base Growth (3%) + User Delta (" ++ toString params.revenue_growth_bps ++ " bps)",
            "OpEx Driver: Revenue Scaling + Efficiency Delta (" ++ toString params.opex_delta_bps ++ " bps)",
            "Discount Rate: " ++ toString (8 / 100 + params.discount_rate_bps / 10000 : ℚ),
            "Monte Carlo: " ++ toString num_simulations ++ " iterations" ]
        traceability :=
          [ ("Revenue", "Base * (1+g)^t"), ("OpEx", "Base * (1+g+delta)^t"),
            ("EBITDA", "Rev - COGS - OpEx") ]
        simulation_runs := results.take 100 }

/-- Total of one balance-sheet section: the named total when present,
otherwise the sum over the remaining line items (logic.py lines 233-235). -/
def sectionTotal (d : List (String × ℚ)) (k : String) : ℚ :=
  dictGetD d k (((d.filter (fun p => ¬ (p.1 == k))).map (fun p => p.2)).sum)

/-- Return shape of check_balance_sheet. -/
structure BalanceCheck where
  is_balanced : Bool
  difference : ℚ
  total_assets : ℚ
  total_liabs_equity : ℚ

/-- logic.py, check_balance_sheet: assets minus liabilities plus equity,
balanced when the absolute difference is under one dollar. -/
def check_balance_sheet (bs : BalanceSheet) : BalanceCheck :=
  let total_assets := sectionTotal bs.Assets "TotalAssets"
  let total_liabs := sectionTotal bs.Liabilities "TotalLiabilities"
  let total_equity := sectionTotal bs.Equity "TotalEquity"
  let diff := total_assets - (total_liabs + total_equity)
  { is_balanced := decide (|diff| < 1)
    difference := diff
    total_assets := total_assets
    total_liabs_equity := total_liabs + total_equity }

/-- Python str.lower modelled character-wise (the statements and blocklist
are ASCII, where this agrees with Python). -/
def strLower (s : String) : String := ⟨s.data.map Char.toLower⟩

/-- Python str.upper modelled character-wise. -/
def strUpper (s : String) : String := ⟨s.data.map Char.toUpper⟩

/-- Python str.strip: drop whitespace from both ends. -/
def strTrim (s : String) : String :=
  ⟨((s.data.dropWhile (fun c => c.isWhitespace)).reverse.dropWhile
      (fun c => c.isWhitespace)).reverse⟩

/-- Python substring membership (the in operator on str): the pattern's
character list is an infix of the subject's character list. -/
def containsSubstr (s pat : String) : Bool :=
  decide (pat.data <:+: s.data)

/-- validator.py, RealismValidatorAgent.blocklist. -/
def blocklist : List String :=
  [ "new product", "product launch", "market expansion",
    "pre-order", "internal projection", "market research",
    "partner demand", "customer retention program",
    "marketing efficiency", "unspecified cost savings" ]

/-- The lexical stage of validate_statement: blocked terms found in the
lowercased statement (validator.py line 31). -/
def blocklistHits (statement : String) : List String :=
  blocklist.filter (fun term => containsSubstr (strLower statement) term)

/-- Parsed shape of the validator's structured response. -/
structure ValidationResult where
  is_valid : Bool
  issues : List String
  feedback : String
deriving DecidableEq

/-- validator.py, RealismValidatorAgent.validate_statement.  The argument
llm is the outcome of the external grounding call together with its JSON
parse: none models a raised call error or an unparseable response, both of
which land in the same except branch of the source.  Message strings are
kept up to Python repr formatting. -/
def validate_statement (llm : Option ValidationResult) (statement : String) :
    ValidationResult :=
  let found_blocked := blocklistHits statement
  if found_blocked = [] then
    match llm with
    | none => { is_valid := true, issues := [], feedback := "" }
    | some result => result
  else
    { is_valid := false
      issues := found_blocked.map (fun term => "Used blocked term: " ++ term)
      feedback := "You mentioned " ++ String.intercalate ", " found_blocked ++
        ". This data does not exist in the report. Remove it and stick to the provided numbers." }

/-- One turn of the debate transcript (models.py, DebateTurn; the wall-clock
timestamp is ambient and not consumed by any claim). -/
structure DebateTurn where
  round_number : ℕ
  speaker : String
  role : String
  message : String
  topic_focus : String
deriving DecidableEq

/-- Parsed shape of the synthesis response after the dict.get defaulting of
_synthesize_consensus. -/
structure Consensus where
  summary : String
  agreements : List String
  disagreements : List String
  verdict : String
  confidence : String
deriving DecidableEq

/-- models.py, DebateResult. -/
structure DebateResult where
  debate_log : List DebateTurn
  total_rounds : ℕ
  converged : Bool
  convergence_round : Option ℕ
  consensus_summary : String
  key_agreements : List String
  key_disagreements : List String
  final_verdict : String
  confidence_level : String
deriving DecidableEq

/-- External-call oracles for one debate run, one stream per call site,
indexed by how many calls that site has made.  none models a raised
exception (or, at the two parse sites, an unparseable response). -/
structure DebateEnv where
  optimist : ℕ → Option String
  validatorLLM : ℕ → Option ValidationResult
  skeptic : ℕ → Option String
  convergence : ℕ → Option String
  synthesis : ℕ → Option Consensus

/-- The validator as invoked from the debate agent: consumes one
validator-LLM call only when the lexical stage passes.  Returns the
validation result and the advanced validator call counter. -/
def runValidator (env : DebateEnv) (vIdx : ℕ) (statement : String) :
    ValidationResult × ℕ :=
  if blocklistHits statement = [] then
    (validate_statement (env.validatorLLM vIdx) statement, vIdx + 1)
  else
    (validate_statement none statement, vIdx)

/-- debate_agent.py, _get_validated_optimist_position and
_get_validated_optimist_response share this attempt loop: up to three
generation attempts; a validated text returns immediately; an invalid text
is retried with feedback; a generation error on the final attempt re-raises
(modelled as Except.error), earlier errors just continue; if all attempts
produce invalid text the last text is returned unvalidated.  The argument is
the remaining attempt count (3 at entry), the optimist and validator call
counters, and the last generated text. -/
def optimistAttempt (env : DebateEnv) :
    ℕ → ℕ → ℕ → Option String → Except Unit String × ℕ × ℕ
  | 0, oIdx, vIdx, last =>
    (match last with
     | some text => Except.ok text
     | none => Except.error (), oIdx, vIdx)
  | n + 1, oIdx, vIdx, last =>
    match env.optimist oIdx with
    | none =>
      if n = 0 then (Except.error (), oIdx + 1, vIdx)
      else optimistAttempt env n (oIdx + 1) vIdx last
    | some text =>
      let v := runValidator env vIdx text
      if v.1.is_valid then (Except.ok text, oIdx + 1, v.2)
      else optimistAttempt env n (oIdx + 1) v.2 (some text)

/-- Counter update for the convergence counter in run_debate
(debate_agent.py lines 116-123): increment on a qualifying check, reset to
zero otherwise. -/
def convStep (counter : ℕ) (q : Bool) : ℕ :=
  if q then counter + 1 else 0

/-- debate_agent.py, _check_convergence: no call and False before 4 turns
exist; otherwise one convergence call whose stripped upper-cased text
qualifies when it contains CONVERGED, or contains PARTIAL while the
transcript already has at least 8 turns; a call error is False.  Returns the
verdict and the advanced convergence call counter. -/
def check_convergence (env : DebateEnv) (cIdx : ℕ) (debate_log : List DebateTurn) :
    Bool × ℕ :=
  if debate_log.length < 4 then (false, cIdx)
  else
    match env.convergence cIdx with
    | none => (false, cIdx + 1)
    | some s =>
      let result := strUpper (strTrim s)
      if containsSubstr result "CONVERGED" then (true, cIdx + 1)
      else if containsSubstr result "PARTIAL" = true ∧ 8 ≤ debate_log.length then (true, cIdx + 1)
      else (false, cIdx + 1)

/-- The deterministic fallback consensus of _synthesize_consensus. -/
def fallbackConsensus : Consensus :=
  { summary := "The analysts discussed the scenario but could not generate a structured consensus summary due to a processing error."
    agreements := ["Debate completed"]
    disagreements := ["See transcript for details"]
    verdict := "Hold"
    confidence := "Low" }

/-- debate_agent.py, _synthesize_consensus: one synthesis call; any error or
parse failure yields the fallback, so this site never raises. -/
def synthesize_consensus (env : DebateEnv) (yIdx : ℕ) : Consensus × ℕ :=
  match env.synthesis yIdx with
  | none => (fallbackConsensus, yIdx + 1)
  | some c => (c, yIdx + 1)

/-- Mutable state of the round loop of run_debate. -/
structure LoopState where
  log : List DebateTurn
  challenge : String
  oIdx : ℕ
  vIdx : ℕ
  sIdx : ℕ
  cIdx : ℕ
  counter : ℕ
  checks : List Bool
deriving DecidableEq

/-- Outcome of the round loop: final state, convergence flag and round. -/
structure LoopOut where
  st : LoopState
  converged : Bool
  convergence_round : Option ℕ
deriving DecidableEq

/-- debate_agent.py, run_debate round loop (rounds 2 to max_rounds): each
iteration produces a validated optimist response, runs the convergence
check, breaks with converged once the counter reaches the threshold, and
otherwise takes an unvalidated skeptic counter and continues.  A generation
error surviving the optimist attempt loop, or any skeptic call error,
escapes the loop (Except.error).  The checks field records each convergence
verdict in order, mirroring the counter updates of the source. -/
def debateLoop (env : DebateEnv) (threshold : ℕ) :
    ℕ → ℕ → LoopState → Except Unit LoopOut
  | 0, _, st => Except.ok ⟨st, false, none⟩
  | fuel + 1, round_num, st =>
    match optimistAttempt env 3 st.oIdx st.vIdx none with
    | (Except.error _, _, _) => Except.error ()
    | (Except.ok text, oIdx', vIdx') =>
      let log1 := st.log ++ [⟨round_num, "Gemini", "Optimist", text, "Round Response"⟩]
      let qc := check_convergence env st.cIdx log1
      let counter' := convStep st.counter qc.1
      let checks' := st.checks ++ [qc.1]
      if qc.1 = true ∧ threshold ≤ counter' then
        Except.ok ⟨⟨log1, st.challenge, oIdx', vIdx', st.sIdx, qc.2, counter', checks'⟩,
          true, some round_num⟩
      else
        match env.skeptic st.sIdx with
        | none => Except.error ()
        | some counterText =>
          let log2 := log1 ++ [⟨round_num, "DeepSeek", "Skeptic", counterText, "Round Counter"⟩]
          debateLoop env threshold fuel (round_num + 1)
            ⟨log2, counterText, oIdx', vIdx', st.sIdx + 1, qc.2, counter', checks'⟩

/-- debate_agent.py, run_debate: validated optimist opening, unvalidated
skeptic challenge, the round loop with max_rounds minus one iterations, and
synthesis.  total_rounds is the number of distinct round numbers in the
transcript, as in len(set(...)). -/
def run_debate (env : DebateEnv) (max_rounds convergence_threshold : ℕ) :
    Except Unit DebateResult :=
  match optimistAttempt env 3 0 0 none with
  | (Except.error _, _, _) => Except.error ()
  | (Except.ok opening, oIdx1, vIdx1) =>
    let log1 : List DebateTurn := [⟨1, "Gemini", "Optimist", opening, "Opening Position"⟩]
    match env.skeptic 0 with
    | none => Except.error ()
    | some challenge =>
      let log2 := log1 ++ [⟨1, "DeepSeek", "Skeptic", challenge, "Initial Challenge"⟩]
      match debateLoop env convergence_threshold (max_rounds - 1) 2
          ⟨log2, challenge, oIdx1, vIdx1, 1, 0, 0, []⟩ with
      | Except.error _ => Except.error ()
      | Except.ok out =>
        let consensus := (synthesize_consensus env 0).1
        Except.ok
          { debate_log := out.st.log
            total_rounds := ((out.st.log.map (fun t => t.round_number)).dedup).length
            converged := out.converged
            convergence_round := out.convergence_round
            consensus_summary := consensus.summary
            key_agreements := consensus.agreements
            key_disagreements := consensus.disagreements
            final_verdict := consensus.verdict
            confidence_level := consensus.confidence }

/-- A concrete base income statement used in concrete evaluations:
revenue 100, COGS 60, gross profit 40, OpEx 20, D and A 10, no interest. -/
def inc0 : IncomeStatement :=
  ⟨100, 60, 40, 20, 20, 10, 10, 0, 0, 10⟩

/-- A concrete balance sheet with no named totals: assets 1000,
liabilities 700, equity 250. -/
def bs0 : BalanceSheet :=
  ⟨[("Cash", 1000)], [("Debt", 700)], [("CommonStock", 250)]⟩

/-- A concrete report: base CapEx 5 (recorded as a positive magnitude) and
zero working-capital change, empty kpis so the defaults apply. -/
def R0 : FinancialReport :=
  ⟨inc0, bs0, ⟨0, 5⟩, []⟩

/-- The all-zero scenario deltas. -/
def P0 : ScenarioParams := ⟨0, 0, 0, 0⟩

/-- Scenario deltas with a minus 700 bps discount-rate delta, driving the
effective discount rate to 1 percent, under the terminal growth rate. -/
def P7 : ScenarioParams := ⟨0, 0, -700, 0⟩

/-- The report R0 with base revenue zeroed out. -/
def RzeroRev : FinancialReport :=
  ⟨⟨0, 60, 40, 20, 20, 10, 10, 0, 0, 10⟩, bs0, ⟨0, 5⟩, []⟩

/-- A trivial sampler whose draws are all zero and whose state is passed
through unchanged. -/
def trivSampler : Sampler :=
  ⟨fun st _ _ _ => (fun _ => 0, st)⟩

/-- The year-t EBIT as recomputed from the stored year record: recorded
EBITDA minus D and A at the base ratio times recorded revenue. -/
def ebitOf (report : FinancialReport) (params : ScenarioParams)
    (g o : ℚ) (s : ℚ × ℚ) : ℚ :=
  (yearStep report params g o s).2.ebitda -
    (yearStep report params g o s).2.rev * da_margin report

/-- Modelled from the spec wording of claim C1: free cash flow equals EBIT
times one minus the effective tax rate, plus D and A, minus CapEx, minus the
working-capital change, where D and A, CapEx and the working-capital change
are the base-year ratio to revenue applied to year-t revenue.  This is the
claim-side formula, to be compared against the code. -/
def claimedFcfAt (report : FinancialReport) (params : ScenarioParams)
    (res : SimulationResult) (t : ℕ) : ℚ :=
  (res.ebitda_forecast.getD t 0 - res.revenue_forecast.getD t 0 * da_margin report)
      * (1 - tax_rate_of report params)
    + res.revenue_forecast.getD t 0 * da_margin report
    - res.revenue_forecast.getD t 0 * capex_margin report
    - res.revenue_forecast.getD t 0 * wc_margin report

/-- Number of consecutive qualifying checks at the end of the outcome list. -/
def trailingCount (l : List Bool) : ℕ :=
  (l.reverse.takeWhile (fun b => b)).length

/-- An environment in which every external call raises. -/
def envAllFail : DebateEnv :=
  ⟨fun _ => none, fun _ => none, fun _ => none, fun _ => none, fun _ => none⟩

/-- An environment in which every persona call succeeds while every
validator, convergence and synthesis call fails. -/
def envUp : DebateEnv :=
  ⟨fun _ => some "Optimist turn", fun _ => none, fun _ => some "Skeptic turn",
    fun _ => none, fun _ => none⟩

/-- An empty round-loop state. -/
def emptyLoopState : LoopState := ⟨[], "", 0, 0, 0, 1, 0, []⟩

/-- C5: check_balance_sheet returns difference equal to total assets minus
the sum of total liabilities and total equity, with a missing total
defaulting to the sum of the remaining line items of that section, and
is_balanced exactly when the absolute difference is under one dollar; on
assets 1000, liabilities 700, equity 250 it returns is_balanced false and
difference 50. -/
theorem check_balance_sheet_spec :
    (∀ bs : BalanceSheet,
      (check_balance_sheet bs).difference =
        sectionTotal bs.Assets "TotalAssets" -
          (sectionTotal bs.Liabilities "TotalLiabilities" +
            sectionTotal bs.Equity "TotalEquity")
      ∧ ((check_balance_sheet bs).is_balanced = true ↔
          |(check_balance_sheet bs).difference| < 1))
    ∧ (check_balance_sheet bs0).is_balanced = false
    ∧ (check_balance_sheet bs0).difference = 50 := by
  refine ⟨fun bs => ⟨rfl, ?_⟩, ?_, ?_⟩
  · simp [check_balance_sheet]
  · norm_num [check_balance_sheet, sectionTotal, dictGetD, bs0, List.find?, List.filter,
      (show ("Cash" == "TotalAssets") = false by decide),
      (show ("Debt" == "TotalLiabilities") = false by decide),
      (show ("CommonStock" == "TotalEquity") = false by decide)]
  · norm_num [check_balance_sheet, sectionTotal, dictGetD, bs0, List.find?, List.filter,
      (show ("Cash" == "TotalAssets") = false by decide),
      (show ("Debt" == "TotalLiabilities") = false by decide),
      (show ("CommonStock" == "TotalEquity") = false by decide)]

/-- C3: the discount rate used by every trial strictly exceeds the 2 percent
terminal growth rate; whenever the base 8 percent plus the bps delta would
not exceed it, the rate is floored to growth plus one percent; and the trial
NPV is computed with exactly this rate, in the Gordon division and the
discounting of both the 5-year stream and the terminal value. -/
theorem discount_rate_exceeds_growth :
    ∀ (params : ScenarioParams) (report : FinancialReport) (i : ℕ) (g o : ℚ),
      (2 / 100 : ℚ) < usedDiscountRate params
      ∧ (8 / 100 + params.discount_rate_bps / 10000 ≤ 2 / 100 →
          usedDiscountRate params = 2 / 100 + 1 / 100)
      ∧ (runTrial report params i g o).npv =
          calculate_npv
            ((runYears report params g o 5
              (report.income_statement.Revenue, report.income_statement.OpEx)).map
                (fun y => y.fcf))
            (usedDiscountRate params)
          + (((runYears report params g o 5
                (report.income_statement.Revenue, report.income_statement.OpEx)).map
                  (fun y => y.fcf)).getLastD 0 * (1 + 2 / 100) /
                (usedDiscountRate params - 2 / 100)) /
              (1 + usedDiscountRate params) ^ 5 := by
  intro params report i g o
  refine ⟨?_, ?_, rfl⟩
  · by_cases h : 8 / 100 + params.discount_rate_bps / 10000 ≤ (2 / 100 : ℚ)
    · simp only [usedDiscountRate, if_pos h]
      norm_num
    · simp only [usedDiscountRate, if_neg h]
      linarith [not_le.mp h]
  · intro h
    simp only [usedDiscountRate, if_pos h]

/-- Witness for C3 at a concrete scenario where the floor fires. -/
theorem discount_rate_exceeds_growth_witness :
    (8 / 100 + P7.discount_rate_bps / 10000 ≤ (2 / 100 : ℚ))
    ∧ usedDiscountRate P7 = 2 / 100 + 1 / 100
    ∧ (2 / 100 : ℚ) < usedDiscountRate P7 :=
  ⟨by norm_num [P7], (discount_rate_exceeds_growth P7 R0 0 0 0).2.1 (by norm_num [P7]),
    (discount_rate_exceeds_growth P7 R0 0 0 0).1⟩

/-- C4: run_monte_carlo is deterministic.  The random draws come from a
generator built with the literal seed 42, so the ambient entropy that an
unseeded generator would consume never influences the result: two calls
with the same statement, params, trial count and sampler agree on the whole
AggregatedSimulation, in particular on every numeric field. -/
theorem run_monte_carlo_deterministic :
    ∀ (sampler : Sampler) (e1 e2 : ℕ) (report : FinancialReport)
      (params : ScenarioParams) (n : ℕ),
      run_monte_carlo sampler e1 report params n =
        run_monte_carlo sampler e2 report params n :=
  fun _ _ _ _ _ _ => rfl

/-- C6: run_monte_carlo fails if and only if the base revenue is not
positive, and in that case the error is produced identically for every
sampler, entropy and trial count: the check precedes the generator and the
trial loop, and there is no retry. -/
theorem run_monte_carlo_input_error :
    ∀ (sampler : Sampler) (entropy : ℕ) (report : FinancialReport)
      (params : ScenarioParams) (n : ℕ),
      ((∃ msg, run_monte_carlo sampler entropy report params n = Except.error msg)
        ↔ report.income_statement.Revenue ≤ 0)
      ∧ (report.income_statement.Revenue ≤ 0 →
          ∀ (sampler2 : Sampler) (entropy2 n2 : ℕ),
            run_monte_carlo sampler entropy report params n =
              run_monte_carlo sampler2 entropy2 report params n2) := by
  intro sampler entropy report params n
  constructor
  · constructor
    · rintro ⟨msg, h⟩
      by_contra hpos
      unfold run_monte_carlo at h
      rw [if_neg hpos] at h
      exact absurd h (by simp)
    · intro h
      exact ⟨"Base revenue must be positive", by unfold run_monte_carlo; rw [if_pos h]⟩
  · intro h sampler2 entropy2 n2
    unfold run_monte_carlo
    rw [if_pos h, if_pos h]

/-- Witness for C6 at a report with zero base revenue. -/
theorem run_monte_carlo_input_error_witness :
    RzeroRev.income_statement.Revenue ≤ 0
    ∧ run_monte_carlo trivSampler 0 RzeroRev P0 3 =
        run_monte_carlo trivSampler 1 RzeroRev P0 5 :=
  ⟨by norm_num [RzeroRev],
    (run_monte_carlo_input_error trivSampler 0 RzeroRev P0 3).2 (by norm_num [RzeroRev])
      trivSampler 1 5⟩

/-- C10: the net-income path zeroes taxes on non-positive EBIT while the
FCF path applies EBIT times one minus the tax rate unconditionally.  First
conjunct: in every simulated year, net income subtracts yearTaxes (zero
unless EBIT is positive) while FCF is calculate_fcf of the same EBIT.
Second conjunct: with negative EBIT and a positive tax rate, the tax line
is zero but calculate_fcf equals pre-tax FCF plus the strictly positive
benefit minus EBIT times the rate. -/
theorem tax_asymmetry :
    (∀ (report : FinancialReport) (params : ScenarioParams) (g o : ℚ) (s : ℚ × ℚ),
      (yearStep report params g o s).2.net_income =
        ebitOf report params g o s - report.income_statement.InterestExpense -
          yearTaxes (ebitOf report params g o s) (tax_rate_of report params)
      ∧ (yearStep report params g o s).2.fcf =
          calculate_fcf (ebitOf report params g o s) (tax_rate_of report params)
            ((yearStep report params g o s).2.rev * da_margin report)
            ((yearStep report params g o s).2.rev * wc_margin report)
            ((yearStep report params g o s).2.rev * capex_margin report))
    ∧ (∀ eb τ da wc cap : ℚ, eb < 0 → 0 < τ →
        yearTaxes eb τ = 0
        ∧ calculate_fcf eb τ da wc cap = (eb + da + wc + cap) + -(eb * τ)
        ∧ 0 < -(eb * τ)) := by
  constructor
  · intro report params g o s
    exact ⟨rfl, rfl⟩
  · intro eb τ da wc cap h1 h2
    refine ⟨?_, ?_, ?_⟩
    · unfold yearTaxes
      rw [if_neg (not_lt.mpr h1.le)]
    · unfold calculate_fcf
      ring
    · exact neg_pos.mpr (mul_neg_of_neg_of_pos h1 h2)

/-- Witness for C10 at EBIT minus 4 and tax rate one quarter. -/
theorem tax_asymmetry_witness :
    ((-4 : ℚ) < 0) ∧ ((0 : ℚ) < 1 / 4)
    ∧ yearTaxes (-4) (1 / 4) = 0
    ∧ calculate_fcf (-4) (1 / 4) 1 2 3 = ((-4) + 1 + 2 + 3) + -((-4) * (1 / 4))
    ∧ (0 : ℚ) < -((-4) * (1 / 4)) :=
  ⟨by norm_num, by norm_num,
    (tax_asymmetry.2 (-4) (1 / 4) 1 2 3 (by norm_num) (by norm_num)).1,
    (tax_asymmetry.2 (-4) (1 / 4) 1 2 3 (by norm_num) (by norm_num)).2.1,
    (tax_asymmetry.2 (-4) (1 / 4) 1 2 3 (by norm_num) (by norm_num)).2.2⟩

/-- C7: any statement whose lowercased text contains any blocked term of
the lexical blocklist is rejected by the lexical stage alone: is_valid is
false, the issues list is non-empty, and the result does not depend on the
external grounding call (the same result is produced when that call would
fail), so no external call is issued, regardless of numeric content.  In
particular any text containing the phrase new product launch
(case-insensitively) contains a blocked term, so it is always rejected. -/
theorem lexical_block_rejects :
    (∀ (stmt : String) (llm : Option ValidationResult),
      (∃ term, term ∈ blocklist ∧ containsSubstr (strLower stmt) term = true) →
      ((validate_statement llm stmt).is_valid = false
       ∧ (validate_statement llm stmt).issues ≠ []
       ∧ validate_statement llm stmt = validate_statement none stmt))
    ∧ (∀ stmt : String,
        containsSubstr (strLower stmt) "new product launch" = true →
        ∃ term, term ∈ blocklist ∧ containsSubstr (strLower stmt) term = true) := by
  constructor
  · intro stmt llm h
    rcases h with ⟨term, hmemb, hcont⟩
    have hmem : term ∈ blocklistHits stmt := by
      unfold blocklistHits
      exact List.mem_filter.mpr ⟨hmemb, hcont⟩
    have hne : blocklistHits stmt ≠ [] := List.ne_nil_of_mem hmem
    unfold validate_statement
    rw [if_neg hne, if_neg hne]
    refine ⟨rfl, ?_, rfl⟩
    simpa using hne
  · intro stmt h
    have hinf : ("new product launch").data <:+: (strLower stmt).data :=
      of_decide_eq_true h
    have hsub : ("new product").data <:+: ("new product launch").data := by decide
    exact ⟨"new product", by simp [blocklist], decide_eq_true (hsub.trans hinf)⟩

/-- Witness for C7: a blocked term other than the highlighted phrase, on a
concrete mixed-case statement. -/
theorem lexical_block_rejects_witness :
    ("pre-order" ∈ blocklist
      ∧ containsSubstr (strLower "Pre-Order volumes are soaring") "pre-order" = true)
    ∧ (validate_statement none "Pre-Order volumes are soaring").is_valid = false
    ∧ (validate_statement none "Pre-Order volumes are soaring").issues ≠ [] :=
  ⟨⟨by decide, by decide⟩,
    (lexical_block_rejects.1 "Pre-Order volumes are soaring" none
      ⟨"pre-order", by decide, by decide⟩).1,
    (lexical_block_rejects.1 "Pre-Order volumes are soaring" none
      ⟨"pre-order", by decide, by decide⟩).2.1⟩

/-- C8: for any statement that passes the lexical stage, a failing or
unparseable external grounding call makes validate_statement fail open,
returning valid with an empty issues list and empty feedback. -/
theorem validator_fails_open :
    ∀ stmt : String, blocklistHits stmt = [] →
      validate_statement none stmt =
        { is_valid := true, issues := [], feedback := "" } := by
  intro stmt h
  unfold validate_statement
  rw [if_pos h]

/-- Witness for C8 on a concrete clean statement. -/
theorem validator_fails_open_witness :
    blocklistHits "Revenue grew in line with the simulation." = []
    ∧ validate_statement none "Revenue grew in line with the simulation." =
        { is_valid := true, issues := [], feedback := "" } :=
  ⟨by decide,
    validator_fails_open "Revenue grew in line with the simulation." (by decide)⟩

/-- Length of the propagation stream. -/
theorem runYears_length (report : FinancialReport) (params : ScenarioParams)
    (g o : ℚ) : ∀ (n : ℕ) (s : ℚ × ℚ), (runYears report params g o n s).length = n
  | 0, _ => rfl
  | n + 1, s => by
    simp [runYears, runYears_length report params g o n]

/-- Every stored year record satisfies the code's FCF identity: recorded FCF
equals EBIT (recorded EBITDA minus D and A) times one minus the tax rate,
plus D and A, plus the working-capital flow, plus the CapEx flow, each flow
being the base ratio times recorded revenue, added with its sign. -/
theorem runYears_fcf_shape (report : FinancialReport) (params : ScenarioParams)
    (g o : ℚ) :
    ∀ (n : ℕ) (s : ℚ × ℚ) (yr : YearRec), yr ∈ runYears report params g o n s →
      yr.fcf = (yr.ebitda - yr.rev * da_margin report) * (1 - tax_rate_of report params)
        + yr.rev * da_margin report + yr.rev * wc_margin report +
        yr.rev * capex_margin report
  | 0, _, yr, h => absurd h (List.not_mem_nil yr)
  | n + 1, s, yr, h => by
    rcases List.mem_cons.mp h with h1 | h2
    · subst h1; rfl
    · exact runYears_fcf_shape report params g o n _ yr h2

/-- getD through map at an in-range index. -/
theorem getD_map_of_lt {α β : Type} (l : List α) (f : α → β) (t : ℕ) (d : β)
    (h : t < l.length) : (l.map f).getD t d = f (l.get ⟨t, h⟩) := by
  rw [List.getD_eq_getElem?_getD, List.getElem?_map, List.getElem?_eq_getElem h]
  rfl

/-- Counterexample to C1 as stated: on a report whose base CapEx is the
positive magnitude 5 (ratio one twentieth of revenue), the year-1 FCF the
code records differs from the claimed formula, because the code adds the
CapEx term instead of subtracting it. -/
theorem fcf_sign_counterexample :
    (runTrial R0 P0 0 0 0).fcf_forecast.getD 0 0 ≠
      claimedFcfAt R0 P0 (runTrial R0 P0 0 0 0) 0 := by
  norm_num [claimedFcfAt, runTrial, runYears, yearStep, calculate_fcf, yearTaxes,
    organic_growth, tax_rate_of, gross_margin, da_margin, capex_margin, wc_margin,
    dictGetD, R0, P0, inc0, List.find?, List.getD]

/-- C1 amended: every trial of run_monte_carlo is runTrial at its draw pair,
and in every trial and every forecast year the recorded FCF equals
EBIT_t times one minus the effective tax rate plus D and A_t PLUS CapEx_t
PLUS Delta-WC_t, the last two taken with the sign they carry in the base
cash-flow statement (the code adds these ratio-scaled flows; the claimed
subtraction holds only when the base values are recorded as negative
outflows). -/
theorem fcf_formula_amended :
    (∀ (sampler : Sampler) (entropy : ℕ) (report : FinancialReport)
        (params : ScenarioParams) (n : ℕ) (res : SimulationResult),
        res ∈ mcTrials sampler entropy report params n →
        ∃ i, i < n ∧
          res = runTrial report params i ((mcDraws sampler entropy params n).1 i)
                  ((mcDraws sampler entropy params n).2 i))
    ∧ (∀ (report : FinancialReport) (params : ScenarioParams) (i : ℕ)
        (g o : ℚ) (t : ℕ), t < 5 →
        (runTrial report params i g o).fcf_forecast.getD t 0 =
          ((runTrial report params i g o).ebitda_forecast.getD t 0
            - (runTrial report params i g o).revenue_forecast.getD t 0 * da_margin report)
            * (1 - tax_rate_of report params)
          + (runTrial report params i g o).revenue_forecast.getD t 0 * da_margin report
          + (runTrial report params i g o).revenue_forecast.getD t 0 * wc_margin report
          + (runTrial report params i g o).revenue_forecast.getD t 0 * capex_margin report) := by
  constructor
  · intro sampler entropy report params n res hres
    unfold mcTrials at hres
    rcases List.mem_map.mp hres with ⟨i, hi, rfl⟩
    exact ⟨i, List.mem_range.mp hi, rfl⟩
  · intro report params i g o t ht
    have hfcf : (runTrial report params i g o).fcf_forecast =
        (runYears report params g o 5
          (report.income_statement.Revenue, report.income_statement.OpEx)).map
          (fun y => y.fcf) := rfl
    have hebit : (runTrial report params i g o).ebitda_forecast =
        (runYears report params g o 5
          (report.income_statement.Revenue, report.income_statement.OpEx)).map
          (fun y => y.ebitda) := rfl
    have hrev : (runTrial report params i g o).revenue_forecast =
        (runYears report params g o 5
          (report.income_statement.Revenue, report.income_statement.OpEx)).map
          (fun y => y.rev) := rfl
    have ht' : t < (runYears report params g o 5
        (report.income_statement.Revenue, report.income_statement.OpEx)).length := by
      rw [runYears_length]; exact ht
    rw [hfcf, hebit, hrev, getD_map_of_lt _ _ t 0 ht', getD_map_of_lt _ _ t 0 ht',
      getD_map_of_lt _ _ t 0 ht']
    exact runYears_fcf_shape report params g o 5 _ _ (List.get_mem _ _ _)

/-- Witness for the amended C1 at the concrete report R0, year 1. -/
theorem fcf_formula_amended_witness :
    (0 < 5)
    ∧ (runTrial R0 P0 0 0 0).fcf_forecast.getD 0 0 =
        ((runTrial R0 P0 0 0 0).ebitda_forecast.getD 0 0
          - (runTrial R0 P0 0 0 0).revenue_forecast.getD 0 0 * da_margin R0)
          * (1 - tax_rate_of R0 P0)
        + (runTrial R0 P0 0 0 0).revenue_forecast.getD 0 0 * da_margin R0
        + (runTrial R0 P0 0 0 0).revenue_forecast.getD 0 0 * wc_margin R0
        + (runTrial R0 P0 0 0 0).revenue_forecast.getD 0 0 * capex_margin R0 :=
  ⟨by norm_num, fcf_formula_amended.2 R0 P0 0 0 0 0 (by norm_num)⟩

/-- Appending one outcome to the check trace steps the trailing count by
exactly the counter update of the loop. -/
theorem trailingCount_concat (l : List Bool) (b : Bool) :
    trailingCount (l ++ [b]) = convStep (trailingCount l) b := by
  unfold trailingCount convStep
  rw [List.reverse_append]
  cases b with
  | false => simp
  | true => simp

/-- The loop's fold of counter updates computes the trailing count. -/
theorem foldl_convStep_eq (l : List Bool) :
    List.foldl convStep 0 l = trailingCount l := by
  induction l using List.reverseRecOn with
  | nil => rfl
  | append_singleton l b ih =>
    rw [List.foldl_append, trailingCount_concat]
    simp [ih, convStep]

/-- When every optimist generation call succeeds the attempt loop always
returns a text (either a validated one or the final invalid one). -/
theorem optimistAttempt_ok (env : DebateEnv)
    (hopt : ∀ k, ∃ s, env.optimist k = some s) :
    ∀ (n oIdx vIdx : ℕ) (last : Option String),
      (0 < n ∨ ∃ ls, last = some ls) →
      ∃ text, (optimistAttempt env n oIdx vIdx last).1 = Except.ok text := by
  intro n
  induction n with
  | zero =>
    intro oIdx vIdx last h
    rcases h with h | ⟨ls, rfl⟩
    · exact absurd h (by omega)
    · exact ⟨ls, rfl⟩
  | succ n ih =>
    intro oIdx vIdx last _
    rcases hopt oIdx with ⟨text, htext⟩
    simp only [optimistAttempt, htext]
    by_cases hv : (runValidator env vIdx text).1.is_valid = true
    · simp only [hv, if_true]
      exact ⟨text, rfl⟩
    · simp only [hv, if_false]
      exact ih (oIdx + 1) (runValidator env vIdx text).2 (some text) (Or.inr ⟨text, rfl⟩)

/-- When every persona call succeeds, the round loop returns normally and
adds only turns whose round numbers lie in the window from one up to
strictly below the starting round plus the remaining fuel. -/
theorem debateLoop_ok (env : DebateEnv)
    (hopt : ∀ k, ∃ s, env.optimist k = some s)
    (hskep : ∀ k, ∃ s, env.skeptic k = some s) (threshold : ℕ) :
    ∀ (fuel round_num : ℕ) (st : LoopState),
      1 ≤ round_num →
      (∀ turn ∈ st.log, 1 ≤ turn.round_number ∧ turn.round_number < round_num) →
      ∃ out, debateLoop env threshold fuel round_num st = Except.ok out
        ∧ ∀ turn ∈ out.st.log,
            1 ≤ turn.round_number ∧ turn.round_number < round_num + fuel := by
  intro fuel
  induction fuel with
  | zero =>
    intro round_num st hr hlog
    exact ⟨⟨st, false, none⟩, rfl, by simpa using hlog⟩
  | succ fuel ih =>
    intro round_num st hr hlog
    obtain ⟨text, htext⟩ :=
      optimistAttempt_ok env hopt 3 st.oIdx st.vIdx none (Or.inl (by omega))
    rcases hcall : optimistAttempt env 3 st.oIdx st.vIdx none with ⟨e, oIdx', vIdx'⟩
    rw [hcall] at htext
    simp only at htext
    subst htext
    simp only [debateLoop, hcall]
    split
    · refine ⟨_, rfl, ?_⟩
      intro turn hturn
      rcases List.mem_append.mp hturn with h1 | h2
      · rcases hlog turn h1 with ⟨ha, hb⟩
        exact ⟨ha, by omega⟩
      · rcases List.mem_singleton.mp h2 with rfl
        refine ⟨hr, ?_⟩
        show round_num < round_num + (fuel + 1)
        omega
    · obtain ⟨ctext, hct⟩ := hskep st.sIdx
      rw [hct]
      refine (ih (round_num + 1) _ (by omega) ?_).imp (fun out hout => ⟨hout.1, ?_⟩)
      · intro turn hturn
        rcases List.mem_append.mp hturn with h1 | h2
        · rcases List.mem_append.mp h1 with h1a | h1b
          · rcases hlog turn h1a with ⟨ha, hb⟩
            exact ⟨ha, by omega⟩
          · rcases List.mem_singleton.mp h1b with rfl
            refine ⟨hr, ?_⟩
            show round_num < round_num + 1
            omega
        · rcases List.mem_singleton.mp h2 with rfl
          refine ⟨hr, ?_⟩
          show round_num < round_num + 1
          omega
      · intro turn hturn
        rcases hout.2 turn hturn with ⟨ha, hb⟩
        exact ⟨ha, by omega⟩

/-- Counterexample to C2 as stated: with max_rounds = 10 and every external
call failing, run_debate does not return a DebateResult; the exception from
the opening optimist turn (all three generation attempts raise) propagates
out of the orchestrator. -/
theorem run_debate_failure_counterexample :
    run_debate envAllFail 10 2 = Except.error () := rfl

/-- C2 amended: run_debate returns a complete DebateResult whose transcript
stays within max_rounds rounds provided every Optimist generation call and
every Skeptic call succeeds; validator, convergence-check and synthesis
calls may fail arbitrarily, those failures never propagate.  (As the
counterexample shows, a persona-call failure can propagate: an Optimist
turn whose three attempts all raise re-raises, and Skeptic calls are not
guarded at all.) -/
theorem run_debate_terminates_amended :
    ∀ (env : DebateEnv) (max_rounds threshold : ℕ),
      1 ≤ max_rounds →
      (∀ k, ∃ s, env.optimist k = some s) →
      (∀ k, ∃ s, env.skeptic k = some s) →
      ∃ result, run_debate env max_rounds threshold = Except.ok result
        ∧ result.total_rounds ≤ max_rounds
        ∧ ∀ turn ∈ result.debate_log,
            1 ≤ turn.round_number ∧ turn.round_number ≤ max_rounds := by
  intro env max_rounds threshold hmax hopt hskep
  obtain ⟨opening, hop⟩ := optimistAttempt_ok env hopt 3 0 0 none (Or.inl (by omega))
  rcases hcall : optimistAttempt env 3 0 0 none with ⟨e, oIdx1, vIdx1⟩
  rw [hcall] at hop
  simp only at hop
  subst hop
  obtain ⟨challenge, hch⟩ := hskep 0
  obtain ⟨out, hloop, hbound⟩ := debateLoop_ok env hopt hskep threshold
    (max_rounds - 1) 2
    ⟨[⟨1, "Gemini", "Optimist", opening, "Opening Position"⟩] ++
      [⟨1, "DeepSeek", "Skeptic", challenge, "Initial Challenge"⟩],
      challenge, oIdx1, vIdx1, 1, 0, 0, []⟩
    (by omega)
    (by
      intro turn hturn
      rcases List.mem_append.mp hturn with h1 | h2
      · rcases List.mem_singleton.mp h1 with rfl
        exact ⟨le_refl 1, by show (1 : ℕ) < 2; omega⟩
      · rcases List.mem_singleton.mp h2 with rfl
        exact ⟨le_refl 1, by show (1 : ℕ) < 2; omega⟩)
  have hmem : ∀ turn ∈ out.st.log,
      1 ≤ turn.round_number ∧ turn.round_number ≤ max_rounds := by
    intro turn hturn
    rcases hbound turn hturn with ⟨ha, hb⟩
    exact ⟨ha, by omega⟩
  have hrun : run_debate env max_rounds threshold = Except.ok
      { debate_log := out.st.log
        total_rounds := ((out.st.log.map (fun t => t.round_number)).dedup).length
        converged := out.converged
        convergence_round := out.convergence_round
        consensus_summary := (synthesize_consensus env 0).1.summary
        key_agreements := (synthesize_consensus env 0).1.agreements
        key_disagreements := (synthesize_consensus env 0).1.disagreements
        final_verdict := (synthesize_consensus env 0).1.verdict
        confidence_level := (synthesize_consensus env 0).1.confidence } := by
    simp only [run_debate, hcall, hch, hloop]
  refine ⟨_, hrun, ?_, hmem⟩
  · have hsub : (out.st.log.map (fun t => t.round_number)).toFinset ⊆
        Finset.Icc 1 max_rounds := by
      intro x hx
      rw [List.mem_toFinset] at hx
      rcases List.mem_map.mp hx with ⟨turn, hturn, rfl⟩
      exact Finset.mem_Icc.mpr (hmem turn hturn)
    calc ((out.st.log.map (fun t => t.round_number)).dedup).length
        = (out.st.log.map (fun t => t.round_number)).toFinset.card :=
          (List.card_toFinset _).symm
      _ ≤ (Finset.Icc 1 max_rounds).card := Finset.card_le_card hsub
      _ = max_rounds := by rw [Nat.card_Icc]; omega

/-- Witness for the amended C2: two rounds, persona calls always succeed,
all other calls fail. -/
theorem run_debate_terminates_amended_witness :
    1 ≤ 2
    ∧ ∃ result, run_debate envUp 2 2 = Except.ok result
      ∧ result.total_rounds ≤ 2
      ∧ ∀ turn ∈ result.debate_log,
          1 ≤ turn.round_number ∧ turn.round_number ≤ 2 :=
  ⟨by omega,
    run_debate_terminates_amended envUp 2 2 (by omega)
      (fun _ => ⟨"Optimist turn", rfl⟩) (fun _ => ⟨"Skeptic turn", rfl⟩)⟩

/-- Through the round loop, the convergence counter always equals the
trailing count of consecutive qualifying checks, and the converged flag is
raised only once the threshold many trailing qualifying checks exist. -/
theorem debateLoop_counter (env : DebateEnv) (threshold : ℕ) :
    ∀ (fuel round_num : ℕ) (st : LoopState),
      st.counter = trailingCount st.checks →
      ∀ out, debateLoop env threshold fuel round_num st = Except.ok out →
        out.st.counter = trailingCount out.st.checks
        ∧ (out.converged = true → threshold ≤ trailingCount out.st.checks) := by
  intro fuel
  induction fuel with
  | zero =>
    intro round_num st hinv out hout
    simp only [debateLoop] at hout
    injection hout with hout
    subst hout
    exact ⟨hinv, by intro h; exact absurd h (by simp)⟩
  | succ fuel ih =>
    intro round_num st hinv out hout
    simp only [debateLoop] at hout
    rcases hcall : optimistAttempt env 3 st.oIdx st.vIdx none with ⟨e, oIdx', vIdx'⟩
    rw [hcall] at hout
    cases e with
    | error u => exact absurd hout (by simp)
    | ok text =>
      simp only at hout
      split at hout
      · rename_i hcond
        injection hout with hout
        subst hout
        constructor
        · show convStep st.counter _ = trailingCount (st.checks ++ [_])
          rw [trailingCount_concat, hinv]
        · intro _
          show threshold ≤ trailingCount (st.checks ++ [_])
          rw [trailingCount_concat, ← hinv]
          exact hcond.2
      · rcases hsk : env.skeptic st.sIdx with _ | ctext
        · rw [hsk] at hout
          exact absurd hout (by simp)
        · rw [hsk] at hout
          refine ih (round_num + 1) _ ?_ out hout
          show convStep st.counter _ = trailingCount (st.checks ++ [_])
          rw [trailingCount_concat, hinv]

/-- C9: the convergence counter of run_debate never exceeds (in fact equals)
the number of immediately preceding consecutive qualifying convergence
checks: the counter update folded over the check outcomes computes the
trailing qualifying count; a check before 4 turns exist, a DIVERGED
classification, and a PARTIAL classification with fewer than 8 turns, are
all non-qualifying (so they reset the counter to zero); and through the
round loop the counter equals the trailing qualifying count, with the
converged flag raised only once the counter reaches the threshold many
consecutive qualifying checks. -/
theorem convergence_counter_claims :
    (∀ checks : List Bool, List.foldl convStep 0 checks = trailingCount checks)
    ∧ (∀ (env : DebateEnv) (cIdx : ℕ) (log : List DebateTurn),
        log.length < 4 → (check_convergence env cIdx log).1 = false)
    ∧ (∀ (env : DebateEnv) (cIdx : ℕ) (log : List DebateTurn),
        env.convergence cIdx = some "DIVERGED" →
        (check_convergence env cIdx log).1 = false)
    ∧ (∀ (env : DebateEnv) (cIdx : ℕ) (log : List DebateTurn),
        env.convergence cIdx = some "PARTIAL" → log.length < 8 →
        (check_convergence env cIdx log).1 = false)
    ∧ (∀ (env : DebateEnv) (threshold fuel round_num : ℕ) (st : LoopState),
        st.counter = trailingCount st.checks →
        ∀ out, debateLoop env threshold fuel round_num st = Except.ok out →
          out.st.counter = trailingCount out.st.checks
          ∧ (out.converged = true → threshold ≤ trailingCount out.st.checks)) := by
  refine ⟨foldl_convStep_eq, ?_, ?_, ?_, ?_⟩
  · intro env cIdx log h4
    simp [check_convergence, h4]
  · intro env cIdx log hc
    by_cases h4 : log.length < 4
    · simp [check_convergence, h4]
    · simp [check_convergence, h4, hc,
        (show containsSubstr (strUpper (strTrim "DIVERGED")) "CONVERGED" = false by decide),
        (show containsSubstr (strUpper (strTrim "DIVERGED")) "PARTIAL" = false by decide)]
  · intro env cIdx log hc h8
    by_cases h4 : log.length < 4
    · simp [check_convergence, h4]
    · have h8' : ¬ 8 ≤ log.length := by omega
      simp [check_convergence, h4, hc, h8',
        (show containsSubstr (strUpper (strTrim "PARTIAL")) "CONVERGED" = false by decide)]
  · intro env threshold fuel round_num st hinv out hout
    exact debateLoop_counter env threshold fuel round_num st hinv out hout

/-- Witness for C9: the pre-4-turn reset on an empty transcript, and the
counter soundness at fuel zero from the empty loop state. -/
theorem convergence_counter_claims_witness :
    ([] : List DebateTurn).length < 4
    ∧ (check_convergence envAllFail 0 []).1 = false
    ∧ emptyLoopState.counter = trailingCount emptyLoopState.checks
    ∧ (⟨emptyLoopState, false, none⟩ : LoopOut).st.counter =
        trailingCount (⟨emptyLoopState, false, none⟩ : LoopOut).st.checks :=
  ⟨by decide, convergence_counter_claims.2.1 envAllFail 0 [] (by decide), rfl,
    (convergence_counter_claims.2.2.2.2 envAllFail 2 0 2 emptyLoopState rfl
      ⟨emptyLoopState, false, none⟩ rfl).1⟩
